import Mathlib

set_option maxRecDepth 8192

/-!
Verification of the peacepilot-api repository against its specification.

The embedding translates `src/lib/api.ts` (the ClarityEntry data model, the
fallback record, `coerceJson`, `runClarityOnServer`, `generateReport`) and the
route module `app/api/diagnosis/route.ts` (`setCorsHeaders`, `OPTIONS`, `POST`).

Modelling conventions:
- Platform effects are explicit parameters: `process.env.GEMINI_API_KEY` is an
  `Option String`; `new Date().toISOString()` readings are a `clock : Nat → String`
  (reading number 0 is the one taken at the top of `runClarityOnServer`, before
  the upstream call; the source never reads the clock again); `crypto.randomUUID()`
  is a `uuid : String` parameter (exactly one of the three call sites runs per
  invocation); the single `fetch` is a `FetchOutcome` parameter.
- `JSON.parse` is a platform primitive, not repository code.  `coerceJson` and
  `runClarityOnServer` are therefore parametric in a `parse` oracle; a concrete
  executable model (`parseJson` / `parseEntry`) is provided and used in all
  closed theorems.  The concrete model covers standard JSON with integer
  numerals and the usual escapes; the repository only ever feeds it
  brace-delimited candidate objects.
- JavaScript nullish coalescing `x ?? y` is `jsOrElse : Option α → α → α`
  (`none` models a nullish value, i.e. `null`/`undefined`/absent).  It does NOT
  test general falsiness: an empty string on the left is kept.
- Parsed upstream objects are modelled by `ParsedEntry`, whose fields are
  `Option`-typed: `none` = field nullish or missing, `some v` = field present
  with the well-typed value the source's `as Partial<ClarityEntry>` cast
  promises.
-/

namespace PeacePilot

/-- `ClarityEntry` from src/lib/api.ts lines 1-9: the sole domain entity. -/
structure ClarityEntry where
  id : String
  prompt : String
  summary : String
  feelings : List String
  actionPlan : List String
  reflectionPrompts : List String
  createdAt : String
  deriving DecidableEq

/-- The shape of `fallbackEntry` (src/lib/api.ts lines 13-32):
`Omit<ClarityEntry, "prompt" | "id" | "createdAt">`. -/
structure FallbackContent where
  summary : String
  feelings : List String
  actionPlan : List String
  reflectionPrompts : List String
  deriving DecidableEq

/-- `fallbackEntry` from src/lib/api.ts lines 13-32, verbatim. -/
def fallbackEntry : FallbackContent :=
  { summary :=
      "It sounds like you\x27re carrying a lot right now. The core issue is juggling expectations and feeling unsure how to prioritise yourself.",
    feelings :=
      [ "Overwhelm from competing demands",
        "Guilt for not meeting everyone\x27s expectations",
        "Anxiety about making the wrong call" ],
    actionPlan :=
      [ "Name your top three priorities for this week and schedule them first.",
        "Communicate one clear boundary to someone close to reduce pressure.",
        "Break your problem into a next tiny step you can do today (15 minutes).",
        "Plan a short decompression ritual (walk, breathwork, or journaling) daily." ],
    reflectionPrompts :=
      [ "What do I need most right now, and what\x27s one way to honour it?",
        "Where am I saying yes when I really mean no?",
        "If I were advising a friend, what next step would I suggest?" ] }

/-- A parsed upstream object, `Partial<ClarityEntry>`: each field is `none`
when nullish or missing, `some v` when present (well-typed per the source's
cast).  `id`/`createdAt` are carried to show the merge ignores them. -/
structure ParsedEntry where
  id : Option String := none
  createdAt : Option String := none
  summary : Option String := none
  feelings : Option (List String) := none
  actionPlan : Option (List String) := none
  reflectionPrompts : Option (List String) := none
  deriving DecidableEq

/-- JavaScript nullish coalescing `a ?? b`: `none` models a nullish left
operand.  Note an empty string or empty array on the left is NOT nullish and
is kept. -/
def jsOrElse (a : Option α) (b : α) : α :=
  match a with
  | some v => v
  | none => b

/- ---------------------------------------------------------------------
Character-level utilities for the two regular expressions in `coerceJson`.
Braces and backticks are built with `Char.ofNat` / string escapes throughout.
--------------------------------------------------------------------- -/

/-- The character `{`. -/
def braceOpen : Char := Char.ofNat 123

/-- The character `}`. -/
def braceClose : Char := Char.ofNat 125

/-- The three-backtick fence delimiter. -/
def fenceDelim : List Char := "```".data

/-- The literal tag `json` of a fenced block. -/
def jsonTag : List Char := "json".data

/-- The regex class `\s`, restricted to its ASCII members (space, tab, line
feed, carriage return, vertical tab, form feed); the Unicode space members do
not occur in any input considered here. -/
def isJsSpace (c : Char) : Bool :=
  c == ' ' || c == '\t' || c == '\n' || c == '\r' || c == '\x0b' || c == '\x0c'

/-- Drop the longest `\s*` prefix. -/
def dropSpaces : List Char → List Char
  | [] => []
  | c :: rest => if isJsSpace c then dropSpaces rest else c :: rest

/-- Whether `pre` is an initial segment of `cs`. -/
def listStartsWith : List Char → List Char → Bool
  | [], _ => true
  | _ :: _, [] => false
  | p :: ps, c :: cs => p == c && listStartsWith ps cs

/-- The suffix of `cs` starting at the first character satisfying `p`
(`none` when no character does). -/
def suffixFromFirst (p : Char → Bool) : List Char → Option (List Char)
  | [] => none
  | c :: rest => if p c then some (c :: rest) else suffixFromFirst p rest

/-- After the `}` candidate of the lazy body, the regex requires `\s*` then
the closing fence. -/
def fenceCloseAhead (cs : List Char) : Bool :=
  listStartsWith fenceDelim (dropSpaces cs)

/-- The lazy group `[\s\S]*?` of `/```(?:json)?\s*(\{[\s\S]*?\})\s*```/`:
scan forward for the EARLIEST `}` that is followed by `\s*` and a closing
fence; everything before it (any characters at all) is the body.  Returns the
captured group `{body}`. -/
def lazyFenceBody : List Char → List Char → Option (List Char)
  | [], _ => none
  | c :: rest, acc =>
    if c == braceClose && fenceCloseAhead rest then
      some (braceOpen :: (acc.reverse ++ [braceClose]))
    else lazyFenceBody rest (c :: acc)

/-- One anchored attempt of the fence regex at the head of `cs`.  After the
opening fence, `(?:json)?` greedily takes the literal tag when present (if the
attempt then fails, the empty alternative cannot succeed either, since the
next characters would start with `j`, not whitespace or `{`), then `\s*`, then
the `{`-led lazy body.  With `mustTag := true` the tag is mandatory instead of
optional — this variant renders the claim wording "code fence tagged json". -/
def fenceBodyAt (mustTag : Bool) (cs : List Char) : Option (List Char) :=
  if listStartsWith fenceDelim cs then
    let cs1 := cs.drop 3
    let tagged := listStartsWith jsonTag cs1
    if mustTag && !tagged then none
    else
      match dropSpaces (if tagged then cs1.drop 4 else cs1) with
      | c :: rest => if c == braceOpen then lazyFenceBody rest [] else none
      | [] => none
  else none

/-- Leftmost match: try the anchored attempt at every start position in
order, exactly as `String.prototype.match` does for a non-global regex. -/
def fenceScan (mustTag : Bool) : List Char → Option (List Char)
  | [] => none
  | c :: rest =>
    match fenceBodyAt mustTag (c :: rest) with
    | some b => some b
    | none => fenceScan mustTag rest

/-- The captured group of `content.match(/```(?:json)?\s*(\{[\s\S]*?\})\s*```/)`
(src/lib/api.ts line 38): the `json` tag is OPTIONAL in the source regex. -/
def fenceBlock (cs : List Char) : Option (List Char) :=
  fenceScan false cs

/-- The same scan with the `json` tag required, rendering claim C3's wording
"a markdown code fence tagged json". -/
def fenceBlockTagged (cs : List Char) : Option (List Char) :=
  fenceScan true cs

/-- `content.match(/\{[\s\S]*\}/)` (src/lib/api.ts line 48): leftmost start,
greedy body, hence the span from the first `{` to the last `}` (the match
fails exactly when no `}` occurs after the first `{`; a later `{` can never
have a `}` after it in that case, so no other start position can succeed). -/
def braceSpan (cs : List Char) : Option (List Char) :=
  match suffixFromFirst (fun c => c == braceOpen) cs with
  | some (_ :: rest) =>
    match suffixFromFirst (fun c => c == braceClose) rest.reverse with
    | some r => some (braceOpen :: r.reverse)
    | none => none
  | _ => none

/- ---------------------------------------------------------------------
`coerceJson` (src/lib/api.ts lines 34-56), parametric in the `JSON.parse`
oracle (`none` models a thrown `SyntaxError`).  Both regex candidates are
brace-delimited, so a successful parse always yields an object.
--------------------------------------------------------------------- -/

/-- The direct path of `coerceJson` (src/lib/api.ts lines 47-54): match the
whole input against `/\{[\s\S]*\}/` and parse the match, `none` on no match
or parse failure. -/
def coerceDirect (parse : String → Option ParsedEntry) (s : String) : Option ParsedEntry :=
  match braceSpan s.data with
  | some m => parse (String.mk m)
  | none => none

/-- `coerceJson` (src/lib/api.ts lines 34-56).  `content : Option String`
renders the `string | undefined` argument; `if (!content) return null` makes
both `undefined` and the empty string yield `null`.  A fenced block is tried
first; on its parse failure control FALLS THROUGH to the direct path. -/
def coerceJson (parse : String → Option ParsedEntry) (content : Option String) :
    Option ParsedEntry :=
  match content with
  | none => none
  | some s =>
    if s = "" then none
    else
      match fenceBlock s.data with
      | some b =>
        match parse (String.mk b) with
        | some p => some p
        | none => coerceDirect parse s
      | none => coerceDirect parse s

/-- Claim C3's description of the Response Coercer, verbatim: identical to
`coerceJson` except that step (a) only accepts a code fence TAGGED `json`
(`fenceBlockTagged`), where the source regex makes the tag optional. -/
def coerceJsonClaim (parse : String → Option ParsedEntry) (content : Option String) :
    Option ParsedEntry :=
  match content with
  | none => none
  | some s =>
    if s = "" then none
    else
      match fenceBlockTagged s.data with
      | some b =>
        match parse (String.mk b) with
        | some p => some p
        | none => coerceDirect parse s
      | none => coerceDirect parse s

/- ---------------------------------------------------------------------
A concrete executable model of the platform's `JSON.parse`, used to settle
the closed instances.  Standard JSON grammar with integer numerals (the
fraction/exponent forms never occur in the inputs considered here).
--------------------------------------------------------------------- -/

/-- A JavaScript (JSON-expressible) value. -/
inductive JsValue where
  | null
  | bool (b : Bool)
  | num (n : Int)
  | str (s : String)
  | arr (elems : List JsValue)
  | obj (fields : List (String × JsValue))

/-- Hexadecimal digit value, for `\uXXXX` escapes. -/
def hexDigitVal (c : Char) : Option Nat :=
  if '0' ≤ c && c ≤ '9' then some (c.toNat - 48)
  else if 'a' ≤ c && c ≤ 'f' then some (c.toNat - 87)
  else if 'A' ≤ c && c ≤ 'F' then some (c.toNat - 55)
  else none

/-- JSON string body after the opening quote: literal characters and the
standard escapes, up to the closing quote. -/
def parseStrBody : List Char → List Char → Option (String × List Char)
  | [], _ => none
  | c :: rest, acc =>
    if c = '"' then some (String.mk acc.reverse, rest)
    else if c = '\\' then
      match rest with
      | [] => none
      | e :: rest2 =>
        if e = '"' then parseStrBody rest2 ('"' :: acc)
        else if e = '\\' then parseStrBody rest2 ('\\' :: acc)
        else if e = '/' then parseStrBody rest2 ('/' :: acc)
        else if e = 'b' then parseStrBody rest2 ('\x08' :: acc)
        else if e = 'f' then parseStrBody rest2 ('\x0c' :: acc)
        else if e = 'n' then parseStrBody rest2 ('\n' :: acc)
        else if e = 'r' then parseStrBody rest2 ('\r' :: acc)
        else if e = 't' then parseStrBody rest2 ('\t' :: acc)
        else if e = 'u' then
          match rest2 with
          | h1 :: h2 :: h3 :: h4 :: rest3 =>
            match hexDigitVal h1, hexDigitVal h2, hexDigitVal h3, hexDigitVal h4 with
            | some a, some b, some c2, some d =>
              parseStrBody rest3 (Char.ofNat (((a * 16 + b) * 16 + c2) * 16 + d) :: acc)
            | _, _, _, _ => none
          | _ => none
        else none
    else parseStrBody rest (c :: acc)

/-- Split a leading run of decimal digits. -/
def takeDigits : List Char → List Char × List Char
  | [] => ([], [])
  | c :: rest =>
    if c.isDigit then
      let (ds, r) := takeDigits rest
      (c :: ds, r)
    else ([], c :: rest)

/-- Numeric value of a digit run. -/
def digitsToNat (ds : List Char) : Nat :=
  ds.foldl (fun n c => n * 10 + (c.toNat - 48)) 0

/-- Integer JSON numeral, with optional leading minus sign. -/
def parseNumLit : List Char → Option (JsValue × List Char)
  | [] => none
  | c :: rest =>
    if c = '-' then
      match takeDigits rest with
      | ([], _) => none
      | (ds, r) => some (JsValue.num (-(digitsToNat ds : Int)), r)
    else
      match takeDigits (c :: rest) with
      | ([], _) => none
      | (ds, r) => some (JsValue.num (digitsToNat ds), r)

mutual

/-- JSON value, fuel-indexed. -/
def parseVal : Nat → List Char → Option (JsValue × List Char)
  | 0, _ => none
  | Nat.succ fuel, cs =>
    match dropSpaces cs with
    | [] => none
    | c :: rest =>
      if c == braceOpen then
        match dropSpaces rest with
        | d :: rest2 =>
          if d == braceClose then some (JsValue.obj [], rest2)
          else parseObjFields fuel (d :: rest2) []
        | [] => none
      else if c = '[' then
        match dropSpaces rest with
        | d :: rest2 =>
          if d = ']' then some (JsValue.arr [], rest2)
          else parseArrElems fuel (d :: rest2) []
        | [] => none
      else if c = '"' then
        match parseStrBody rest [] with
        | some (s, r) => some (JsValue.str s, r)
        | none => none
      else if listStartsWith "true".data (c :: rest) then
        some (JsValue.bool true, (c :: rest).drop 4)
      else if listStartsWith "false".data (c :: rest) then
        some (JsValue.bool false, (c :: rest).drop 5)
      else if listStartsWith "null".data (c :: rest) then
        some (JsValue.null, (c :: rest).drop 4)
      else parseNumLit (c :: rest)

/-- Object members after `{` (first member) or after `,`. -/
def parseObjFields : Nat → List Char → List (String × JsValue) →
    Option (JsValue × List Char)
  | 0, _, _ => none
  | Nat.succ fuel, cs, acc =>
    match dropSpaces cs with
    | c :: rest =>
      if c = '"' then
        match parseStrBody rest [] with
        | some (k, r1) =>
          match dropSpaces r1 with
          | d :: r2 =>
            if d = ':' then
              match parseVal fuel r2 with
              | some (v, r3) =>
                match dropSpaces r3 with
                | e :: r4 =>
                  if e = ',' then parseObjFields fuel r4 ((k, v) :: acc)
                  else if e == braceClose then
                    some (JsValue.obj ((k, v) :: acc).reverse, r4)
                  else none
                | [] => none
              | none => none
            else none
          | [] => none
        | none => none
      else none
    | [] => none

/-- Array elements after `[` (first element) or after `,`. -/
def parseArrElems : Nat → List Char → List JsValue → Option (JsValue × List Char)
  | 0, _, _ => none
  | Nat.succ fuel, cs, acc =>
    match parseVal fuel cs with
    | some (v, r1) =>
      match dropSpaces r1 with
      | e :: r2 =>
        if e = ',' then parseArrElems fuel r2 (v :: acc)
        else if e = ']' then some (JsValue.arr (v :: acc).reverse, r2)
        else none
      | [] => none
    | none => none

end

/-- `JSON.parse`: a full value followed only by whitespace, `none` renders a
thrown `SyntaxError`.  The fuel is ample: every recursive call follows at
least one consumed input character. -/
def parseJson (s : String) : Option JsValue :=
  match parseVal (2 * s.data.length + 2) s.data with
  | some (v, rest) => if (dropSpaces rest).isEmpty then some v else none
  | none => none

/-- JavaScript object property read, last duplicate key winning. -/
def lookupLast (k : String) (fields : List (String × JsValue)) : Option JsValue :=
  List.lookup k fields.reverse

/-- A present string-typed field; `none` for nullish/missing (a present
non-string value is outside the `as Partial<ClarityEntry>` typing the source
trusts). -/
def asString : Option JsValue → Option String
  | some (JsValue.str s) => some s
  | _ => none

/-- Strings of a homogeneous string array. -/
def asStringElems : List JsValue → Option (List String)
  | [] => some []
  | JsValue.str s :: rest => (asStringElems rest).map (fun l => s :: l)
  | _ => none

/-- A present string-array field; `none` for nullish/missing. -/
def asStringList : Option JsValue → Option (List String)
  | some (JsValue.arr xs) => asStringElems xs
  | _ => none

/-- View of a parsed JSON object through the `Partial<ClarityEntry>` cast. -/
def decodeEntry : JsValue → Option ParsedEntry
  | JsValue.obj fields =>
    some
      { id := asString (lookupLast "id" fields),
        createdAt := asString (lookupLast "createdAt" fields),
        summary := asString (lookupLast "summary" fields),
        feelings := asStringList (lookupLast "feelings" fields),
        actionPlan := asStringList (lookupLast "actionPlan" fields),
        reflectionPrompts := asStringList (lookupLast "reflectionPrompts" fields) }
  | _ => none

/-- The concrete `JSON.parse` oracle fed to `coerceJson` by the closed
instances: parse, then read the object through the cast. -/
def parseEntry (s : String) : Option ParsedEntry :=
  (parseJson s).bind decodeEntry

/- ---------------------------------------------------------------------
`runClarityOnServer` (src/lib/api.ts lines 58-151) and `generateReport`
(lines 184-221, non-browser branch; the browser branch computes the identical
`summary ?? canned` reshaping on the endpoint's response).
--------------------------------------------------------------------- -/

/-- Outcome of the single `fetch` to the upstream service.
`transportError`: `fetch` (or `response.json()`) rejected.
`response ok text`: `response.ok` together with the extracted completion text
`json?.candidates?.[0]?.content?.parts?.[0]?.text ?? ""` (so a missing text is
the empty string, exactly as in the source). -/
inductive FetchOutcome where
  | transportError
  | response (ok : Bool) (text : String)

/-- The fallback-built entry returned by the no-credential branch and the
catch branch alike: `{...fallbackEntry, prompt, createdAt: now, id: uuid}`. -/
def mkFallbackEntry (uuid prompt now : String) : ClarityEntry :=
  { id := uuid, prompt := prompt, summary := fallbackEntry.summary,
    feelings := fallbackEntry.feelings, actionPlan := fallbackEntry.actionPlan,
    reflectionPrompts := fallbackEntry.reflectionPrompts, createdAt := now }

/-- `runClarityOnServer` (src/lib/api.ts lines 58-151).
`clock 0` is the `new Date().toISOString()` reading taken at line 60, before
any branching and before the upstream call; no later clock reading exists in
the source.  `uuid` is the `crypto.randomUUID()` result of whichever single
return site runs.  `if (!key)` is falsy for both a missing and an empty
credential.  A non-ok status and an empty completion text both throw into the
catch branch; a transport error lands there directly.  On a completion text
the parsed object is merged over the fallback per field with `??`. -/
def runClarityOnServer (key : Option String) (clock : Nat → String) (uuid : String)
    (upstream : FetchOutcome) (parse : String → Option ParsedEntry)
    (prompt : String) : ClarityEntry :=
  let now := clock 0
  match key with
  | none => mkFallbackEntry uuid prompt now
  | some k =>
    if k = "" then mkFallbackEntry uuid prompt now
    else
      match upstream with
      | FetchOutcome.transportError => mkFallbackEntry uuid prompt now
      | FetchOutcome.response ok text =>
        if !ok then mkFallbackEntry uuid prompt now
        else if text = "" then mkFallbackEntry uuid prompt now
        else
          let parsed := coerceJson parse (some text)
          { id := uuid, prompt := prompt,
            summary := jsOrElse (parsed.bind ParsedEntry.summary) fallbackEntry.summary,
            feelings := jsOrElse (parsed.bind ParsedEntry.feelings) fallbackEntry.feelings,
            actionPlan := jsOrElse (parsed.bind ParsedEntry.actionPlan) fallbackEntry.actionPlan,
            reflectionPrompts :=
              jsOrElse (parsed.bind ParsedEntry.reflectionPrompts) fallbackEntry.reflectionPrompts,
            createdAt := now }

/-- The canned sentence of `generateReport`. -/
def reportFallbackSentence : String :=
  "This is a lightweight summary you can share. Focus on one next action, and check in with yourself tomorrow to review how it felt."

/-- A ClarityEntry extended with the derived `report` field. -/
structure ReportEntry extends ClarityEntry where
  report : String
  deriving DecidableEq

/-- `generateReport` (src/lib/api.ts lines 184-221): all entry fields plus
`report: entry.summary ?? canned`.  `entry.summary` is a string field of a
`ClarityEntry`, hence never nullish, so the left operand of `??` is always a
present value — rendered as `jsOrElse (some entry.summary) _`. -/
def generateReport (key : Option String) (clock : Nat → String) (uuid : String)
    (upstream : FetchOutcome) (parse : String → Option ParsedEntry)
    (prompt : String) : ReportEntry :=
  let entry := runClarityOnServer key clock uuid upstream parse prompt
  { toClarityEntry := entry,
    report := jsOrElse (some entry.summary) reportFallbackSentence }

/- ---------------------------------------------------------------------
The HTTP route (app/api/diagnosis/route.ts, provided as src/unnamed/part_000).
--------------------------------------------------------------------- -/

/-- `allowedOrigins` from the route module, verbatim. -/
def allowedOrigins : List String :=
  [ "http://localhost:3000",
    "http://localhost:5173",
    "https://peacepilot-ai.web.app",
    "https://peacepilot-ai.web.app/" ]

/-- The response headers set by `setCorsHeaders`. -/
structure CorsHeaders where
  allowOrigin : String
  allowCredentials : Option String
  allowMethods : String
  allowHeaders : String
  maxAge : String
  deriving DecidableEq

/-- The fixed `Access-Control-Allow-Methods` value. -/
def corsMethods : String := "POST, OPTIONS"

/-- The fixed `Access-Control-Allow-Headers` value. -/
def corsAllowedHeaders : String := "Content-Type, Authorization, X-Requested-With"

/-- The fixed `Access-Control-Max-Age` value. -/
def corsMaxAge : String := "86400"

/-- `allowedOrigins[0] || "*"`: the first element when present and truthy,
else the wildcard (dead here, the list being non-empty). -/
def headOrWildcard : List String → String
  | [] => "*"
  | o :: _ => if o = "" then "*" else o

/-- The default branch of `setCorsHeaders`: first allow-list origin, no
credentials header. -/
def defaultCorsHeaders : CorsHeaders :=
  { allowOrigin := headOrWildcard allowedOrigins, allowCredentials := none,
    allowMethods := corsMethods, allowHeaders := corsAllowedHeaders,
    maxAge := corsMaxAge }

/-- `setCorsHeaders` (route lines 17-33).  `if (origin && allowedOrigins.includes(origin))`:
a missing origin header is `none`; string truthiness is non-emptiness. -/
def setCorsHeaders (origin : Option String) : CorsHeaders :=
  match origin with
  | some o =>
    if (o != "") && allowedOrigins.contains o then
      { allowOrigin := o, allowCredentials := some "true",
        allowMethods := corsMethods, allowHeaders := corsAllowedHeaders,
        maxAge := corsMaxAge }
    else defaultCorsHeaders
  | none => defaultCorsHeaders

/-- Body of a route response. -/
inductive RouteBody where
  | empty
  | errorMsg (error : String)
  | entry (e : ClarityEntry)
  deriving DecidableEq

/-- A route response: status, JSON body, CORS headers. -/
structure HttpResponse where
  status : Nat
  body : RouteBody
  cors : CorsHeaders
  deriving DecidableEq

/-- `OPTIONS` (route lines 35-40): a 200 empty response with CORS headers. -/
def OPTIONS (origin : Option String) : HttpResponse :=
  { status := 200, body := RouteBody.empty, cors := setCorsHeaders origin }

/-- JavaScript truthiness of a JSON-expressible value. -/
def jsTruthy : JsValue → Bool
  | JsValue.null => false
  | JsValue.bool b => b
  | JsValue.num n => n != 0
  | JsValue.str s => s != ""
  | JsValue.arr _ => true
  | JsValue.obj _ => true

/-- Truthiness of a possibly-`undefined` value. -/
def jsTruthyOpt : Option JsValue → Bool
  | none => false
  | some v => jsTruthy v

/-- `body?.prompt`: property read on an arbitrary value — `undefined` on
non-objects, last duplicate key wins on objects. -/
def jsGetField (v : JsValue) (k : String) : Option JsValue :=
  match v with
  | JsValue.obj fields => lookupLast k fields
  | _ => none

/-- `POST` (route lines 42-71).  `requestBody` is the outcome of
`await request.json()` (`none`: it threw, landing in the catch branch).
`if (!prompt)` rejects any falsy prompt with 400 before anything else runs.
For a truthy prompt, line 58 evaluates `prompt.substring(0, 50)`: on a
non-string value this is a `TypeError` (`substring` is not a function there),
caught by the handler's try/catch, hence the generic 500 WITHOUT invoking
`runClarityOnServer`.  Only a truthy string reaches the Generation Routine.
The second component records the prompt the routine was invoked on (`none`:
not invoked; the upstream `fetch` only ever happens inside the routine). -/
def POST (origin : Option String) (requestBody : Option JsValue) (key : Option String)
    (clock : Nat → String) (uuid : String) (upstream : FetchOutcome)
    (parse : String → Option ParsedEntry) : HttpResponse × Option String :=
  match requestBody with
  | none =>
    ({ status := 500, body := RouteBody.errorMsg "Failed to generate diagnosis",
       cors := setCorsHeaders origin }, none)
  | some body =>
    let prompt := jsGetField body "prompt"
    if !(jsTruthyOpt prompt) then
      ({ status := 400, body := RouteBody.errorMsg "Prompt is required",
         cors := setCorsHeaders origin }, none)
    else
      match prompt with
      | some (JsValue.str s) =>
        ({ status := 200,
           body := RouteBody.entry (runClarityOnServer key clock uuid upstream parse s),
           cors := setCorsHeaders origin }, some s)
      | _ =>
        ({ status := 500, body := RouteBody.errorMsg "Failed to generate diagnosis",
           cors := setCorsHeaders origin }, none)

/- ---------------------------------------------------------------------
Specification-side definitions, used only in theorem statements.
--------------------------------------------------------------------- -/

/-- The failure conditions of the Generation Routine named by the
specification: missing (or empty, hence falsy) credential, transport failure,
non-success upstream status, empty completion text, or a completion text from
which no object could be coerced. -/
def failurePath (key : Option String) (upstream : FetchOutcome)
    (parse : String → Option ParsedEntry) : Bool :=
  match key with
  | none => true
  | some k =>
    k == "" ||
      match upstream with
      | FetchOutcome.transportError => true
      | FetchOutcome.response ok text =>
        !ok || text == "" || (coerceJson parse (some text)).isNone

/-- The POST handler as the amended claim C5 describes it, written
independently of `POST`: a parse failure of the request body answers the
generic 500; an absent prompt or a falsy prompt value answers 400; a
non-empty string prompt is handed to the Generation Routine and answered 200;
a truthy non-string prompt trips the handler's logging (`substring` on a
non-string) and answers the generic 500. -/
def postAmendedSpec (origin : Option String) (requestBody : Option JsValue)
    (key : Option String) (clock : Nat → String) (uuid : String)
    (upstream : FetchOutcome) (parse : String → Option ParsedEntry) :
    HttpResponse × Option String :=
  match requestBody with
  | none =>
    ({ status := 500, body := RouteBody.errorMsg "Failed to generate diagnosis",
       cors := setCorsHeaders origin }, none)
  | some body =>
    match jsGetField body "prompt" with
    | some (JsValue.str s) =>
      if s = "" then
        ({ status := 400, body := RouteBody.errorMsg "Prompt is required",
           cors := setCorsHeaders origin }, none)
      else
        ({ status := 200,
           body := RouteBody.entry (runClarityOnServer key clock uuid upstream parse s),
           cors := setCorsHeaders origin }, some s)
    | some v =>
      if jsTruthy v then
        ({ status := 500, body := RouteBody.errorMsg "Failed to generate diagnosis",
           cors := setCorsHeaders origin }, none)
      else
        ({ status := 400, body := RouteBody.errorMsg "Prompt is required",
           cors := setCorsHeaders origin }, none)
    | none =>
      ({ status := 400, body := RouteBody.errorMsg "Prompt is required",
         cors := setCorsHeaders origin }, none)

/-- The prompt value the POST handler forwards to the Generation Routine, as
a function of the parsed body's `prompt` field: only a truthy string is ever
forwarded, and it is forwarded unchanged. -/
def forwardedPromptSpec (p : Option JsValue) : Option String :=
  match p with
  | some (JsValue.str s) => if s = "" then none else some s
  | _ => none

/-- The POST status as a function of the parsed body's `prompt` field: 400
exactly for a falsy value, 200 for a truthy string, 500 for a truthy
non-string. -/
def postStatusSpec (p : Option JsValue) : Nat :=
  if jsTruthyOpt p then
    match p with
    | some (JsValue.str _) => 200
    | _ => 500
  else 400

/-- Lexicographic order on character lists, by code point. -/
def charListLe : List Char → List Char → Bool
  | [], _ => true
  | _ :: _, [] => false
  | a :: as, b :: bs =>
    if a.toNat < b.toNat then true
    else if a.toNat = b.toNat then charListLe as bs
    else false

/-- Order on `toISOString` outputs: the fixed-width ISO-8601 format makes the
chronological order coincide with the lexicographic order of the strings. -/
def isoLe (a b : String) : Bool := charListLe a.data b.data

/- ---------------------------------------------------------------------
Shared helper lemmas.
--------------------------------------------------------------------- -/

/-- The returned identifier is always the fresh `crypto.randomUUID()` value,
on every path. -/
theorem runClarity_id (key : Option String) (clock : Nat → String) (uuid : String)
    (up : FetchOutcome) (parse : String → Option ParsedEntry) (prompt : String) :
    (runClarityOnServer key clock uuid up parse prompt).id = uuid := by
  unfold runClarityOnServer
  cases key with
  | none => rfl
  | some k =>
    by_cases hk : k = ""
    · simp [hk, mkFallbackEntry]
    · simp only [if_neg hk]
      cases up with
      | transportError => rfl
      | response ok text =>
        cases ok with
        | false => rfl
        | true => by_cases ht : text = "" <;> simp [ht, mkFallbackEntry]

/-- The returned timestamp is always the reading taken at line 60, before the
upstream call. -/
theorem runClarity_createdAt (key : Option String) (clock : Nat → String) (uuid : String)
    (up : FetchOutcome) (parse : String → Option ParsedEntry) (prompt : String) :
    (runClarityOnServer key clock uuid up parse prompt).createdAt = clock 0 := by
  unfold runClarityOnServer
  cases key with
  | none => rfl
  | some k =>
    by_cases hk : k = ""
    · simp [hk, mkFallbackEntry]
    · simp only [if_neg hk]
      cases up with
      | transportError => rfl
      | response ok text =>
        cases ok with
        | false => rfl
        | true => by_cases ht : text = "" <;> simp [ht, mkFallbackEntry]

/-- The prompt field always echoes the input. -/
theorem runClarity_prompt (key : Option String) (clock : Nat → String) (uuid : String)
    (up : FetchOutcome) (parse : String → Option ParsedEntry) (prompt : String) :
    (runClarityOnServer key clock uuid up parse prompt).prompt = prompt := by
  unfold runClarityOnServer
  cases key with
  | none => rfl
  | some k =>
    by_cases hk : k = ""
    · simp [hk, mkFallbackEntry]
    · simp only [if_neg hk]
      cases up with
      | transportError => rfl
      | response ok text =>
        cases ok with
        | false => rfl
        | true => by_cases ht : text = "" <;> simp [ht, mkFallbackEntry]

/-- The successful-completion branch, written out. -/
theorem runClarity_success (k : String) (clock : Nat → String) (uuid : String)
    (text : String) (parse : String → Option ParsedEntry) (prompt : String)
    (hk : k ≠ "") (ht : text ≠ "") :
    runClarityOnServer (some k) clock uuid (FetchOutcome.response true text) parse prompt =
      { id := uuid, prompt := prompt,
        summary :=
          jsOrElse ((coerceJson parse (some text)).bind ParsedEntry.summary)
            fallbackEntry.summary,
        feelings :=
          jsOrElse ((coerceJson parse (some text)).bind ParsedEntry.feelings)
            fallbackEntry.feelings,
        actionPlan :=
          jsOrElse ((coerceJson parse (some text)).bind ParsedEntry.actionPlan)
            fallbackEntry.actionPlan,
        reflectionPrompts :=
          jsOrElse ((coerceJson parse (some text)).bind ParsedEntry.reflectionPrompts)
            fallbackEntry.reflectionPrompts,
        createdAt := clock 0 } := by
  unfold runClarityOnServer
  simp [hk, ht]

/-- On every failure path named by the specification the routine returns the
fallback-built entry.  (The parse-failure case lands there through the
field-by-field merge: all four `??` operators fire.) -/
theorem runClarity_fallback (key : Option String) (clock : Nat → String) (uuid : String)
    (up : FetchOutcome) (parse : String → Option ParsedEntry) (prompt : String)
    (h : failurePath key up parse = true) :
    runClarityOnServer key clock uuid up parse prompt =
      mkFallbackEntry uuid prompt (clock 0) := by
  cases key with
  | none => rfl
  | some k =>
    by_cases hk : k = ""
    · simp [runClarityOnServer, hk]
    · simp only [failurePath, Bool.or_eq_true, beq_iff_eq, hk, false_or] at h
      cases up with
      | transportError => simp [runClarityOnServer, hk]
      | response ok text =>
        cases ok with
        | false => simp [runClarityOnServer, hk]
        | true =>
          by_cases ht : text = ""
          · simp [runClarityOnServer, hk, ht]
          · simp only [Bool.not_true, Bool.false_or, Bool.or_eq_true, beq_iff_eq, ht,
              false_or, Option.isNone_iff_eq_none] at h
            rw [runClarity_success k clock uuid text parse prompt hk ht, h]
            rfl

/-- `coerceJson` can only return an object the parse oracle itself produced
(from the fenced block or from the brace span). -/
theorem coerceJson_some_of (parse : String → Option ParsedEntry) (content : Option String)
    (q : ParsedEntry) (h : coerceJson parse content = some q) :
    ∃ s, parse s = some q := by
  unfold coerceJson at h
  cases content with
  | none => exact absurd h (by simp)
  | some s =>
    by_cases hs : s = ""
    · simp [hs] at h
    · simp only [if_neg hs] at h
      have hdir : ∀ (hd : coerceDirect parse s = some q), ∃ u, parse u = some q := by
        intro hd
        unfold coerceDirect at hd
        cases hbs : braceSpan s.data with
        | none => rw [hbs] at hd; exact absurd hd (by simp)
        | some m => rw [hbs] at hd; exact ⟨String.mk m, hd⟩
      cases hfb : fenceBlock s.data with
      | none => rw [hfb] at h; exact hdir h
      | some b =>
        rw [hfb] at h
        cases hpb : parse (String.mk b) with
        | none =>
          simp only [String.mk, hpb] at h
          exact hdir h
        | some p =>
          simp only [String.mk, hpb] at h
          exact ⟨String.mk b, by rw [hpb, h]⟩

/-- Either the routine returns the fallback-built entry, or it returns the
per-field merge of an object the parse oracle produced. -/
theorem runClarity_shape (key : Option String) (clock : Nat → String) (uuid : String)
    (up : FetchOutcome) (parse : String → Option ParsedEntry) (prompt : String) :
    runClarityOnServer key clock uuid up parse prompt = mkFallbackEntry uuid prompt (clock 0) ∨
    ∃ q, (∃ s, parse s = some q) ∧
      runClarityOnServer key clock uuid up parse prompt =
        { id := uuid, prompt := prompt,
          summary := jsOrElse q.summary fallbackEntry.summary,
          feelings := jsOrElse q.feelings fallbackEntry.feelings,
          actionPlan := jsOrElse q.actionPlan fallbackEntry.actionPlan,
          reflectionPrompts := jsOrElse q.reflectionPrompts fallbackEntry.reflectionPrompts,
          createdAt := clock 0 } := by
  cases key with
  | none => exact Or.inl rfl
  | some k =>
    by_cases hk : k = ""
    · exact Or.inl (by simp [runClarityOnServer, hk])
    · cases up with
      | transportError => exact Or.inl (by simp [runClarityOnServer, hk])
      | response ok text =>
        cases ok with
        | false => exact Or.inl (by simp [runClarityOnServer, hk])
        | true =>
          by_cases ht : text = ""
          · exact Or.inl (by simp [runClarityOnServer, hk, ht])
          · rw [runClarity_success k clock uuid text parse prompt hk ht]
            cases hcp : coerceJson parse (some text) with
            | none => exact Or.inl rfl
            | some q =>
              exact Or.inr ⟨q, coerceJson_some_of parse (some text) q hcp, rfl⟩

/-- Computation of `suffixFromFirst`, characterized declaratively: it
returns `some s` exactly when the input splits as `pre ++ c :: rest` with no
`p`-character in `pre`, `p c`, and `s` the suffix from `c` on. -/
theorem suffixFromFirst_some_iff (p : Char → Bool) (cs s : List Char) :
    suffixFromFirst p cs = some s ↔
      ∃ pre c rest, cs = pre ++ c :: rest ∧ (∀ a ∈ pre, p a = false) ∧
        p c = true ∧ s = c :: rest := by
  induction cs generalizing s with
  | nil => simp [suffixFromFirst]
  | cons a cs ih =>
    by_cases hpa : p a = true
    · simp only [suffixFromFirst, hpa, if_true]
      constructor
      · intro h
        injection h with h
        exact ⟨[], a, cs, by simp, by simp, hpa, h.symm⟩
      · rintro ⟨pre, c, rest, hdec, hpre, hpc, hs⟩
        cases pre with
        | nil =>
          simp only [List.nil_append, List.cons.injEq] at hdec
          rw [hs, hdec.1, hdec.2]
        | cons b pre =>
          simp only [List.cons_append, List.cons.injEq] at hdec
          have hfa : p a = false := hdec.1 ▸ hpre b (by simp)
          rw [hpa] at hfa
          exact absurd hfa (by simp)
    · have hpa' : p a = false := by
        cases hval : p a with
        | false => rfl
        | true => exact absurd hval hpa
      simp only [suffixFromFirst, hpa', if_false, Bool.false_eq_true]
      rw [ih]
      constructor
      · rintro ⟨pre, c, rest, hdec, hpre, hpc, hs⟩
        refine ⟨a :: pre, c, rest, by rw [hdec]; rfl, ?_, hpc, hs⟩
        intro x hx
        rcases List.mem_cons.mp hx with h | h
        · rw [h]; exact hpa'
        · exact hpre x h
      · rintro ⟨pre, c, rest, hdec, hpre, hpc, hs⟩
        cases pre with
        | nil =>
          simp only [List.nil_append, List.cons.injEq] at hdec
          rw [hdec.1] at hpa'
          rw [hpc] at hpa'
          exact absurd hpa' (by simp)
        | cons b pre =>
          simp only [List.cons_append, List.cons.injEq] at hdec
          exact ⟨pre, c, rest, hdec.2, fun x hx => hpre x (by simp [hx]), hpc, hs⟩

/-- The direct regex `/\{[\s\S]*\}/` matches exactly the span from the first
`{` of the input to its last `}`, provided that `}` comes after that `{`:
`braceSpan cs = some t` iff `cs` splits as `pre ++ braceOpen :: (mid ++
braceClose :: post)` with no `{` in `pre` and no `}` in `post`, and `t` is
the bracketed middle. -/
theorem braceSpan_some_iff (cs t : List Char) :
    braceSpan cs = some t ↔
      ∃ pre mid post, cs = pre ++ braceOpen :: (mid ++ braceClose :: post) ∧
        (∀ a ∈ pre, a ≠ braceOpen) ∧ (∀ a ∈ post, a ≠ braceClose) ∧
        t = braceOpen :: (mid ++ [braceClose]) := by
  constructor
  · intro h
    unfold braceSpan at h
    cases h1 : suffixFromFirst (fun c => c == braceOpen) cs with
    | none => rw [h1] at h; exact absurd h (by simp)
    | some s1 =>
      rw [h1] at h
      cases s1 with
      | nil => dsimp only at h; exact Option.noConfusion h
      | cons c0 rest =>
        dsimp only at h
        obtain ⟨pre, c, rest', hdec, hpre, hpc, hs⟩ :=
          (suffixFromFirst_some_iff _ cs (c0 :: rest)).mp h1
        have hc0 : c0 = c ∧ rest = rest' := by
          have := hs
          simp only [List.cons.injEq] at this
          exact ⟨this.1, this.2⟩
        have hcb : c = braceOpen := by simpa using hpc
        cases h2 : suffixFromFirst (fun c => c == braceClose) rest.reverse with
        | none => rw [h2] at h; exact Option.noConfusion h
        | some r =>
          rw [h2] at h
          simp only [Option.some.injEq] at h
          obtain ⟨pre2, c2, w, hdec2, hpre2, hpc2, hr⟩ :=
            (suffixFromFirst_some_iff _ rest.reverse r).mp h2
          have hc2b : c2 = braceClose := by simpa using hpc2
          refine ⟨pre, w.reverse, pre2.reverse, ?_, ?_, ?_, ?_⟩
          · rw [hdec, hcb]
            congr 2
            rw [← hc0.2]
            have hrev : rest = (pre2 ++ c2 :: w).reverse := by
              rw [← hdec2, List.reverse_reverse]
            rw [hrev, hc2b]
            simp [List.reverse_append]
          · intro a ha
            have := hpre a ha
            simpa using this
          · intro a ha
            have := hpre2 a (List.mem_reverse.mp ha)
            simpa using this
          · rw [← h, hr, hc2b]
            simp
  · rintro ⟨pre, mid, post, hdec, hpre, hpost, ht⟩
    unfold braceSpan
    have h1 : suffixFromFirst (fun c => c == braceOpen) cs =
        some (braceOpen :: (mid ++ braceClose :: post)) := by
      rw [suffixFromFirst_some_iff]
      exact ⟨pre, braceOpen, mid ++ braceClose :: post, hdec,
        fun a ha => by simpa using hpre a ha, by simp, rfl⟩
    rw [h1]
    dsimp only
    have h2 : suffixFromFirst (fun c => c == braceClose)
        (mid ++ braceClose :: post).reverse = some (braceClose :: mid.reverse) := by
      rw [suffixFromFirst_some_iff]
      refine ⟨post.reverse, braceClose, mid.reverse, ?_, ?_, by simp, rfl⟩
      · simp [List.reverse_append]
      · intro a ha
        simpa using hpost a (List.mem_reverse.mp ha)
    rw [h2, ht]
    simp

/- ---------------------------------------------------------------------
Claim theorems.
--------------------------------------------------------------------- -/

/-- C1 (amended): for every prompt and every environment the Generation
Routine returns a complete entry (it is a total function of its inputs —
"never raises"); the prompt field equals the input exactly, the identifier
and timestamp are the fresh ones; every failure path (missing credential,
transport failure, non-success status, empty completion, parse failure)
yields the fallback-built entry; and every field is non-empty PROVIDED the
prompt is non-empty, the uuid and clock sources produce non-empty strings
(as `crypto.randomUUID` and `toISOString` do), and every field present in a
parsed upstream object is non-empty.  Without the last proviso the original
claim fails: an upstream `{"summary":""}` passes its empty string through
the nullish merge (see the counterexample). -/
theorem claimC1 (key : Option String) (clock : Nat → String) (uuid : String)
    (upstream : FetchOutcome) (parse : String → Option ParsedEntry) (prompt : String)
    (hu : uuid ≠ "") (hc : clock 0 ≠ "") (hp : prompt ≠ "")
    (hparse : ∀ s q, parse s = some q →
      (∀ x, q.summary = some x → x ≠ "") ∧
      (∀ l, q.feelings = some l → l ≠ []) ∧
      (∀ l, q.actionPlan = some l → l ≠ []) ∧
      (∀ l, q.reflectionPrompts = some l → l ≠ [])) :
    (runClarityOnServer key clock uuid upstream parse prompt).prompt = prompt ∧
    (runClarityOnServer key clock uuid upstream parse prompt).id = uuid ∧
    (runClarityOnServer key clock uuid upstream parse prompt).createdAt = clock 0 ∧
    (runClarityOnServer key clock uuid upstream parse prompt).id ≠ "" ∧
    (runClarityOnServer key clock uuid upstream parse prompt).prompt ≠ "" ∧
    (runClarityOnServer key clock uuid upstream parse prompt).createdAt ≠ "" ∧
    (runClarityOnServer key clock uuid upstream parse prompt).summary ≠ "" ∧
    (runClarityOnServer key clock uuid upstream parse prompt).feelings ≠ [] ∧
    (runClarityOnServer key clock uuid upstream parse prompt).actionPlan ≠ [] ∧
    (runClarityOnServer key clock uuid upstream parse prompt).reflectionPrompts ≠ [] ∧
    (failurePath key upstream parse = true →
      runClarityOnServer key clock uuid upstream parse prompt =
        mkFallbackEntry uuid prompt (clock 0)) := by
  refine ⟨runClarity_prompt key clock uuid upstream parse prompt,
    runClarity_id key clock uuid upstream parse prompt,
    runClarity_createdAt key clock uuid upstream parse prompt, ?_, ?_, ?_, ?_, ?_, ?_, ?_,
    runClarity_fallback key clock uuid upstream parse prompt⟩
  · rw [runClarity_id]; exact hu
  · rw [runClarity_prompt]; exact hp
  · rw [runClarity_createdAt]; exact hc
  · rcases runClarity_shape key clock uuid upstream parse prompt with h | ⟨q, ⟨s, hs⟩, h⟩
    · rw [h]; show fallbackEntry.summary ≠ ""; decide
    · rw [h]
      show jsOrElse q.summary fallbackEntry.summary ≠ ""
      cases hq : q.summary with
      | none => decide
      | some x => exact (hparse s q hs).1 x hq
  · rcases runClarity_shape key clock uuid upstream parse prompt with h | ⟨q, ⟨s, hs⟩, h⟩
    · rw [h]; show fallbackEntry.feelings ≠ []; decide
    · rw [h]
      show jsOrElse q.feelings fallbackEntry.feelings ≠ []
      cases hq : q.feelings with
      | none => decide
      | some l => exact (hparse s q hs).2.1 l hq
  · rcases runClarity_shape key clock uuid upstream parse prompt with h | ⟨q, ⟨s, hs⟩, h⟩
    · rw [h]; show fallbackEntry.actionPlan ≠ []; decide
    · rw [h]
      show jsOrElse q.actionPlan fallbackEntry.actionPlan ≠ []
      cases hq : q.actionPlan with
      | none => decide
      | some l => exact (hparse s q hs).2.2.1 l hq
  · rcases runClarity_shape key clock uuid upstream parse prompt with h | ⟨q, ⟨s, hs⟩, h⟩
    · rw [h]; show fallbackEntry.reflectionPrompts ≠ []; decide
    · rw [h]
      show jsOrElse q.reflectionPrompts fallbackEntry.reflectionPrompts ≠ []
      cases hq : q.reflectionPrompts with
      | none => decide
      | some l => exact (hparse s q hs).2.2.2 l hq

/-- C1 witness: the no-credential path at a concrete input. -/
theorem claimC1_witness :
    ("u" : String) ≠ "" ∧ ("2024-01-01T00:00:00.000Z" : String) ≠ "" ∧ ("p" : String) ≠ "" ∧
    (∀ (s : String) (q : ParsedEntry), (fun _ => (none : Option ParsedEntry)) s = some q →
      (∀ x, q.summary = some x → x ≠ "") ∧
      (∀ l, q.feelings = some l → l ≠ []) ∧
      (∀ l, q.actionPlan = some l → l ≠ []) ∧
      (∀ l, q.reflectionPrompts = some l → l ≠ [])) ∧
    ((runClarityOnServer none (fun _ => "2024-01-01T00:00:00.000Z") "u"
        FetchOutcome.transportError (fun _ => none) "p").prompt = "p" ∧
     (runClarityOnServer none (fun _ => "2024-01-01T00:00:00.000Z") "u"
        FetchOutcome.transportError (fun _ => none) "p").id = "u" ∧
     (runClarityOnServer none (fun _ => "2024-01-01T00:00:00.000Z") "u"
        FetchOutcome.transportError (fun _ => none) "p").createdAt =
          (fun _ => "2024-01-01T00:00:00.000Z") 0 ∧
     (runClarityOnServer none (fun _ => "2024-01-01T00:00:00.000Z") "u"
        FetchOutcome.transportError (fun _ => none) "p").id ≠ "" ∧
     (runClarityOnServer none (fun _ => "2024-01-01T00:00:00.000Z") "u"
        FetchOutcome.transportError (fun _ => none) "p").prompt ≠ "" ∧
     (runClarityOnServer none (fun _ => "2024-01-01T00:00:00.000Z") "u"
        FetchOutcome.transportError (fun _ => none) "p").createdAt ≠ "" ∧
     (runClarityOnServer none (fun _ => "2024-01-01T00:00:00.000Z") "u"
        FetchOutcome.transportError (fun _ => none) "p").summary ≠ "" ∧
     (runClarityOnServer none (fun _ => "2024-01-01T00:00:00.000Z") "u"
        FetchOutcome.transportError (fun _ => none) "p").feelings ≠ [] ∧
     (runClarityOnServer none (fun _ => "2024-01-01T00:00:00.000Z") "u"
        FetchOutcome.transportError (fun _ => none) "p").actionPlan ≠ [] ∧
     (runClarityOnServer none (fun _ => "2024-01-01T00:00:00.000Z") "u"
        FetchOutcome.transportError (fun _ => none) "p").reflectionPrompts ≠ [] ∧
     (failurePath none FetchOutcome.transportError (fun _ => none) = true →
       runClarityOnServer none (fun _ => "2024-01-01T00:00:00.000Z") "u"
          FetchOutcome.transportError (fun _ => none) "p" =
         mkFallbackEntry "u" "p" ((fun _ => "2024-01-01T00:00:00.000Z") 0))) :=
  ⟨by decide, by decide, by decide,
   fun s q h => Option.noConfusion h,
   claimC1 none (fun _ => "2024-01-01T00:00:00.000Z") "u" FetchOutcome.transportError
     (fun _ => none) "p" (by decide) (by decide) (by decide)
     (fun s q h => Option.noConfusion h)⟩

/-- C1 counterexample: with the credential present, an upstream completion
`{"summary":""}` and the empty prompt, the returned entry has empty `summary`
and `prompt` fields, refuting "in the returned entry every field is
non-empty" as stated for every prompt string. -/
theorem claimC1_counterexample :
    (runClarityOnServer (some "k") (fun _ => "2024-01-01T00:00:00.000Z") "u"
        (FetchOutcome.response true "\x7b\"summary\":\"\"\x7d") parseEntry "").summary = "" ∧
    (runClarityOnServer (some "k") (fun _ => "2024-01-01T00:00:00.000Z") "u"
        (FetchOutcome.response true "\x7b\"summary\":\"\"\x7d") parseEntry "").prompt = "" :=
  ⟨rfl, rfl⟩

/-- C2: on a successful upstream completion whose text coerces to an object
`q`, the routine merges per field, independently: each of the four content
fields is the parsed value when present and the Fallback Record's value
otherwise; in particular a parse yielding only a summary keeps that summary
and the three fallback lists. -/
theorem claimC2 (k : String) (clock : Nat → String) (uuid : String) (text : String)
    (parse : String → Option ParsedEntry) (prompt : String) (q : ParsedEntry)
    (hk : k ≠ "") (ht : text ≠ "") (hq : coerceJson parse (some text) = some q) :
    (∀ x, q.summary = some x →
      (runClarityOnServer (some k) clock uuid (FetchOutcome.response true text)
        parse prompt).summary = x) ∧
    (q.summary = none →
      (runClarityOnServer (some k) clock uuid (FetchOutcome.response true text)
        parse prompt).summary = fallbackEntry.summary) ∧
    (∀ l, q.feelings = some l →
      (runClarityOnServer (some k) clock uuid (FetchOutcome.response true text)
        parse prompt).feelings = l) ∧
    (q.feelings = none →
      (runClarityOnServer (some k) clock uuid (FetchOutcome.response true text)
        parse prompt).feelings = fallbackEntry.feelings) ∧
    (∀ l, q.actionPlan = some l →
      (runClarityOnServer (some k) clock uuid (FetchOutcome.response true text)
        parse prompt).actionPlan = l) ∧
    (q.actionPlan = none →
      (runClarityOnServer (some k) clock uuid (FetchOutcome.response true text)
        parse prompt).actionPlan = fallbackEntry.actionPlan) ∧
    (∀ l, q.reflectionPrompts = some l →
      (runClarityOnServer (some k) clock uuid (FetchOutcome.response true text)
        parse prompt).reflectionPrompts = l) ∧
    (q.reflectionPrompts = none →
      (runClarityOnServer (some k) clock uuid (FetchOutcome.response true text)
        parse prompt).reflectionPrompts = fallbackEntry.reflectionPrompts) ∧
    (∀ x, q = { summary := some x } →
      (runClarityOnServer (some k) clock uuid (FetchOutcome.response true text)
        parse prompt).summary = x ∧
      (runClarityOnServer (some k) clock uuid (FetchOutcome.response true text)
        parse prompt).feelings = fallbackEntry.feelings ∧
      (runClarityOnServer (some k) clock uuid (FetchOutcome.response true text)
        parse prompt).actionPlan = fallbackEntry.actionPlan ∧
      (runClarityOnServer (some k) clock uuid (FetchOutcome.response true text)
        parse prompt).reflectionPrompts = fallbackEntry.reflectionPrompts) := by
  have h := runClarity_success k clock uuid text parse prompt hk ht
  rw [hq] at h
  refine ⟨?_, ?_, ?_, ?_, ?_, ?_, ?_, ?_, ?_⟩
  · intro x hx
    rw [h]; show jsOrElse q.summary fallbackEntry.summary = x; rw [hx]; exact rfl
  · intro h0
    rw [h]; show jsOrElse q.summary fallbackEntry.summary = fallbackEntry.summary
    rw [h0]; exact rfl
  · intro l hl
    rw [h]; show jsOrElse q.feelings fallbackEntry.feelings = l; rw [hl]; exact rfl
  · intro h0
    rw [h]; show jsOrElse q.feelings fallbackEntry.feelings = fallbackEntry.feelings
    rw [h0]; exact rfl
  · intro l hl
    rw [h]; show jsOrElse q.actionPlan fallbackEntry.actionPlan = l; rw [hl]; exact rfl
  · intro h0
    rw [h]; show jsOrElse q.actionPlan fallbackEntry.actionPlan = fallbackEntry.actionPlan
    rw [h0]; exact rfl
  · intro l hl
    rw [h]; show jsOrElse q.reflectionPrompts fallbackEntry.reflectionPrompts = l
    rw [hl]; exact rfl
  · intro h0
    rw [h]
    show jsOrElse q.reflectionPrompts fallbackEntry.reflectionPrompts =
      fallbackEntry.reflectionPrompts
    rw [h0]; exact rfl
  · intro x hqe
    subst hqe
    rw [h]
    exact ⟨rfl, rfl, rfl, rfl⟩

/-- C2 witness: a concrete successful completion whose text is a JSON object
containing only a summary. -/
theorem claimC2_witness :
    ("k" : String) ≠ "" ∧ ("\x7b\"summary\":\"hi\"\x7d" : String) ≠ "" ∧
    coerceJson parseEntry (some "\x7b\"summary\":\"hi\"\x7d") =
      some { summary := some "hi" } ∧
    ((runClarityOnServer (some "k") (fun _ => "T0") "u"
        (FetchOutcome.response true "\x7b\"summary\":\"hi\"\x7d") parseEntry "p").summary = "hi" ∧
     (runClarityOnServer (some "k") (fun _ => "T0") "u"
        (FetchOutcome.response true "\x7b\"summary\":\"hi\"\x7d") parseEntry "p").feelings =
       fallbackEntry.feelings ∧
     (runClarityOnServer (some "k") (fun _ => "T0") "u"
        (FetchOutcome.response true "\x7b\"summary\":\"hi\"\x7d") parseEntry "p").actionPlan =
       fallbackEntry.actionPlan ∧
     (runClarityOnServer (some "k") (fun _ => "T0") "u"
        (FetchOutcome.response true "\x7b\"summary\":\"hi\"\x7d") parseEntry "p").reflectionPrompts =
       fallbackEntry.reflectionPrompts) :=
  ⟨by decide, by decide, rfl,
   (claimC2 "k" (fun _ => "T0") "u" "\x7b\"summary\":\"hi\"\x7d" parseEntry "p"
       { summary := some "hi" } (by decide) (by decide) rfl).2.2.2.2.2.2.2.2 "hi" rfl⟩

/-- C3 (amended): the Response Coercer behaves exactly as the claim describes
with one amendment: in step (a) the fence's `json` tag is OPTIONAL (the
source regex reads `(?:json)?`), so an untagged markdown fence is accepted
too — the counterexample shows the two behaviours differ.  Clauses: an absent
and an empty input signal absence; when a fence matches and its contents
parse, the parsed object is returned; on its parse failure control falls
through to the direct path, which is also taken when no fence matches; the
direct path parses `braceSpan` — characterized in the final clause as exactly
the substring of the whole input from the first `{` to the last `}` —
signalling absence when no such substring exists or when its parse fails. -/
theorem claimC3 :
    (∀ parse : String → Option ParsedEntry,
      coerceJson parse none = none ∧ coerceJson parse (some "") = none) ∧
    (∀ (parse : String → Option ParsedEntry) (s : String) (b : List Char) (q : ParsedEntry),
      s ≠ "" → fenceBlock s.data = some b → parse (String.mk b) = some q →
      coerceJson parse (some s) = some q) ∧
    (∀ (parse : String → Option ParsedEntry) (s : String) (b : List Char),
      s ≠ "" → fenceBlock s.data = some b → parse (String.mk b) = none →
      coerceJson parse (some s) = coerceDirect parse s) ∧
    (∀ (parse : String → Option ParsedEntry) (s : String),
      s ≠ "" → fenceBlock s.data = none →
      coerceJson parse (some s) = coerceDirect parse s) ∧
    (∀ (parse : String → Option ParsedEntry) (s : String),
      braceSpan s.data = none → coerceDirect parse s = none) ∧
    (∀ (parse : String → Option ParsedEntry) (s : String) (m : List Char),
      braceSpan s.data = some m → coerceDirect parse s = parse (String.mk m)) ∧
    (∀ cs t : List Char, braceSpan cs = some t ↔
      ∃ pre mid post, cs = pre ++ braceOpen :: (mid ++ braceClose :: post) ∧
        (∀ a ∈ pre, a ≠ braceOpen) ∧ (∀ a ∈ post, a ≠ braceClose) ∧
        t = braceOpen :: (mid ++ [braceClose])) := by
  refine ⟨fun parse => ⟨rfl, rfl⟩, ?_, ?_, ?_, ?_, ?_, braceSpan_some_iff⟩
  · intro parse s b q hs hfb hpb
    unfold coerceJson
    dsimp only
    rw [if_neg hs, hfb]
    dsimp only
    rw [hpb]
  · intro parse s b hs hfb hpb
    unfold coerceJson
    dsimp only
    rw [if_neg hs, hfb]
    dsimp only
    rw [hpb]
  · intro parse s hs hfb
    unfold coerceJson
    dsimp only
    rw [if_neg hs, hfb]
  · intro parse s hbs
    unfold coerceDirect
    rw [hbs]
  · intro parse s m hbs
    unfold coerceDirect
    rw [hbs]

/-- C3 witness: a concrete input with no brace-delimited substring, on which
the direct path signals absence. -/
theorem claimC3_witness :
    braceSpan ("hello".data) = none ∧ coerceDirect parseEntry "hello" = none :=
  ⟨rfl, claimC3.2.2.2.2.1 parseEntry "hello" rfl⟩

/-- C3 counterexample: on a fence NOT tagged `json` followed by prose
containing a stray `}`, the claim's algorithm — fence must be tagged, so step
(b) takes the first-`{`-to-last-`}` substring, which fails to parse — signals
absence (`coerceJsonClaim`), while the source accepts the untagged fence and
returns the parsed object (`coerceJson`). -/
theorem claimC3_counterexample :
    coerceJson parseEntry (some "```\n\x7b\"summary\":\"ok\"\x7d\n``` tail \x7d") =
      some { summary := some "ok" } ∧
    coerceJsonClaim parseEntry (some "```\n\x7b\"summary\":\"ok\"\x7d\n``` tail \x7d") =
      none :=
  ⟨rfl, rfl⟩

/-- The POST handler coincides with the amended description
`postAmendedSpec`. -/
theorem POST_eq_postAmendedSpec (origin : Option String) (requestBody : Option JsValue)
    (key : Option String) (clock : Nat → String) (uuid : String)
    (upstream : FetchOutcome) (parse : String → Option ParsedEntry) :
    POST origin requestBody key clock uuid upstream parse =
      postAmendedSpec origin requestBody key clock uuid upstream parse := by
  cases requestBody with
  | none => rfl
  | some body =>
    simp only [POST, postAmendedSpec]
    cases hp : jsGetField body "prompt" with
    | none => rfl
    | some v =>
      cases v with
      | null => rfl
      | bool b => cases b with | false => rfl | true => rfl
      | num n =>
        by_cases hn : n = 0
        · subst hn; rfl
        · have ht : (n != 0) = true := by simpa using hn
          simp [jsTruthyOpt, jsTruthy, ht]
      | str s =>
        by_cases hs0 : s = ""
        · subst hs0; rfl
        · have ht : (s != "") = true := by simpa using hs0
          simp [jsTruthyOpt, jsTruthy, ht, hs0]
      | arr xs => rfl
      | obj fs => rfl

/-- C5 (amended): a request whose body fails to parse is answered 500 with
the generic error payload; an absent or FALSY prompt (absent, null, empty
string, 0, false) is answered 400 with the required-prompt payload, without
invoking the Generation Routine (hence without any upstream call, the fetch
living inside the routine); a present non-empty STRING prompt is handed to
the Generation Routine and answered 200 with the resulting entry; a truthy
non-string prompt makes the handler's logging line throw (`substring` on a
non-string) and is answered 500 without invoking the routine.  The original
claim's "prompt present implies 200 and an invocation" fails on falsy and on
truthy non-string present values — see the counterexample. -/
theorem claimC5 (origin : Option String) (requestBody : Option JsValue)
    (key : Option String) (clock : Nat → String) (uuid : String)
    (upstream : FetchOutcome) (parse : String → Option ParsedEntry) :
    POST origin requestBody key clock uuid upstream parse =
      postAmendedSpec origin requestBody key clock uuid upstream parse :=
  POST_eq_postAmendedSpec origin requestBody key clock uuid upstream parse

/-- C5 counterexample: the body `{"prompt": 0}` has its prompt field present
(and not empty), yet the handler answers 400 with the required-prompt payload
and never invokes the Generation Routine, where the claim requires a 200 with
the routine's entry. -/
theorem claimC5_counterexample :
    POST none (some (JsValue.obj [("prompt", JsValue.num 0)])) (some "k")
        (fun _ => "2024-01-01T00:00:00.000Z") "u" FetchOutcome.transportError parseEntry =
      ({ status := 400, body := RouteBody.errorMsg "Prompt is required",
         cors := defaultCorsHeaders }, none) :=
  rfl

/-- C10 (amended): the handler answers 400 exactly when the parsed body's
prompt field is falsy (absent, null, empty string, 0 or false); a truthy
STRING prompt is forwarded unchanged to the Generation Routine; a truthy
value of any other type is NOT forwarded — the logging line's `substring`
call throws a TypeError on it, so the handler answers the generic 500 without
invoking the routine (the original claim said such values are accepted and
forwarded — see the counterexample). -/
theorem claimC10 (origin : Option String) (body : JsValue) (key : Option String)
    (clock : Nat → String) (uuid : String) (upstream : FetchOutcome)
    (parse : String → Option ParsedEntry) :
    (POST origin (some body) key clock uuid upstream parse).1.status =
      postStatusSpec (jsGetField body "prompt") ∧
    (POST origin (some body) key clock uuid upstream parse).2 =
      forwardedPromptSpec (jsGetField body "prompt") := by
  rw [POST_eq_postAmendedSpec]
  simp only [postAmendedSpec, postStatusSpec, forwardedPromptSpec]
  cases hp : jsGetField body "prompt" with
  | none => exact ⟨rfl, rfl⟩
  | some v =>
    cases v with
    | null => exact ⟨rfl, rfl⟩
    | bool b => cases b with | false => exact ⟨rfl, rfl⟩ | true => exact ⟨rfl, rfl⟩
    | num n =>
      by_cases hn : n = 0
      · subst hn; exact ⟨rfl, rfl⟩
      · have ht : (n != 0) = true := by simpa using hn
        simp [jsTruthyOpt, jsTruthy, ht]
    | str s =>
      by_cases hs0 : s = ""
      · subst hs0; exact ⟨rfl, rfl⟩
      · have ht : (s != "") = true := by simpa using hs0
        simp [jsTruthyOpt, jsTruthy, ht, hs0]
    | arr xs => exact ⟨rfl, rfl⟩
    | obj fs => exact ⟨rfl, rfl⟩

/-- C10 counterexample: the truthy non-string prompt `1` is answered 500 and
never forwarded to the Generation Routine, where the claim says any truthy
JSON value is accepted and forwarded unchanged. -/
theorem claimC10_counterexample :
    POST none (some (JsValue.obj [("prompt", JsValue.num 1)])) (some "k")
        (fun _ => "2024-01-01T00:00:00.000Z") "u" FetchOutcome.transportError parseEntry =
      ({ status := 500, body := RouteBody.errorMsg "Failed to generate diagnosis",
         cors := defaultCorsHeaders }, none) :=
  rfl

/-- C4 (amended): `generateReport` returns all fields of the obtained
ClarityEntry plus a `report` field that ALWAYS equals the entry's summary.
The canned sentence would replace the summary only were it nullish, which a
`ClarityEntry`'s string-typed summary never is; in particular an empty-string
summary yields an empty report, not the canned sentence (see the
counterexample). -/
theorem claimC4 (key : Option String) (clock : Nat → String) (uuid : String)
    (up : FetchOutcome) (parse : String → Option ParsedEntry) (prompt : String) :
    (generateReport key clock uuid up parse prompt).toClarityEntry =
      runClarityOnServer key clock uuid up parse prompt ∧
    (generateReport key clock uuid up parse prompt).report =
      (runClarityOnServer key clock uuid up parse prompt).summary :=
  ⟨rfl, rfl⟩

/-- C4 counterexample: the claim says the canned sentence is substituted
"whenever the summary is falsy or absent (including the empty string)".  With
an upstream completion `{"summary":""}` the entry's summary is the empty
string (falsy), yet the report is the empty string, not the canned
sentence — `??` tests nullishness, not falsiness. -/
theorem claimC4_counterexample :
    (generateReport (some "k") (fun _ => "2024-01-01T00:00:00.000Z") "u"
        (FetchOutcome.response true "\x7b\"summary\":\"\"\x7d") parseEntry "p").report = "" ∧
    reportFallbackSentence ≠ "" :=
  ⟨rfl, by decide⟩

/-- C6: when the upstream credential is absent, the returned entry's four
content fields exactly equal the Fallback Record's, for every prompt, clock,
uuid, upstream outcome and parse oracle. -/
theorem claimC6 (clock : Nat → String) (uuid : String) (up : FetchOutcome)
    (parse : String → Option ParsedEntry) (prompt : String) :
    (runClarityOnServer none clock uuid up parse prompt).summary = fallbackEntry.summary ∧
    (runClarityOnServer none clock uuid up parse prompt).feelings = fallbackEntry.feelings ∧
    (runClarityOnServer none clock uuid up parse prompt).actionPlan = fallbackEntry.actionPlan ∧
    (runClarityOnServer none clock uuid up parse prompt).reflectionPrompts =
      fallbackEntry.reflectionPrompts :=
  ⟨rfl, rfl, rfl, rfl⟩

/-- C7: every response of the endpoint (OPTIONS and each POST outcome alike)
carries `setCorsHeaders origin`; OPTIONS always answers 200; an allow-listed
origin is echoed with the credentials header set to `"true"`, any other
origin (including a missing one) gets the first allow-list origin
`http://localhost:3000` and no credentials header; the allowed methods,
allowed headers and pre-flight cache duration are the same fixed values in
every case. -/
theorem claimC7 (origin : Option String) (requestBody : Option JsValue)
    (key : Option String) (clock : Nat → String) (uuid : String)
    (upstream : FetchOutcome) (parse : String → Option ParsedEntry) :
    (OPTIONS origin).status = 200 ∧
    (OPTIONS origin).cors = setCorsHeaders origin ∧
    (POST origin requestBody key clock uuid upstream parse).1.cors = setCorsHeaders origin ∧
    setCorsHeaders none = defaultCorsHeaders ∧
    (∀ o, setCorsHeaders (some o) =
      if allowedOrigins.contains o then
        { allowOrigin := o, allowCredentials := some "true", allowMethods := corsMethods,
          allowHeaders := corsAllowedHeaders, maxAge := corsMaxAge }
      else defaultCorsHeaders) ∧
    defaultCorsHeaders.allowOrigin = "http://localhost:3000" ∧
    defaultCorsHeaders.allowCredentials = none ∧
    (∀ o, (setCorsHeaders o).allowMethods = corsMethods ∧
      (setCorsHeaders o).allowHeaders = corsAllowedHeaders ∧
      (setCorsHeaders o).maxAge = corsMaxAge) := by
  refine ⟨rfl, rfl, ?_, rfl, ?_, by decide, rfl, ?_⟩
  · cases requestBody with
    | none => rfl
    | some body =>
      simp only [POST]
      split
      · rfl
      · split <;> rfl
  · intro o
    by_cases ho : o = ""
    · subst ho
      have hc : ¬ ("" ∈ allowedOrigins) := by decide
      simp [setCorsHeaders, hc]
    · have hne : (o != "") = true := by simp [ho]
      simp [setCorsHeaders, hne]
  · intro o
    cases o with
    | none => exact ⟨rfl, rfl, rfl⟩
    | some o =>
      simp only [setCorsHeaders]
      split <;> exact ⟨rfl, rfl, rfl⟩

/-- C8: the identifier is always the routine's fresh `crypto.randomUUID()`
value and the timestamp is always `clock 0`, the reading captured at the top
of the routine (line 60), before the upstream call — for EVERY parse oracle,
in particular one whose objects carry `id` or `createdAt` fields (the merge
reads neither).  Replacing every clock reading after the initial one (the
readings that could only be taken during or after the upstream call) does
not change the result at all. -/
theorem claimC8 (key : Option String) (clock clock' : Nat → String) (uuid : String)
    (up : FetchOutcome) (parse : String → Option ParsedEntry) (prompt : String) :
    (runClarityOnServer key clock uuid up parse prompt).id = uuid ∧
    (runClarityOnServer key clock uuid up parse prompt).createdAt = clock 0 ∧
    runClarityOnServer key (fun n => match n with | 0 => clock 0 | Nat.succ m => clock' m)
        uuid up parse prompt =
      runClarityOnServer key clock uuid up parse prompt :=
  ⟨runClarity_id key clock uuid up parse prompt,
   runClarity_createdAt key clock uuid up parse prompt, rfl⟩

/-- C9: two successive invocations with the same prompt — arbitrary upstream
outcomes and parse results in each — return different identifiers whenever
the two `crypto.randomUUID()` draws differ (which that primitive guarantees),
and non-decreasing timestamps whenever the second call's initial clock
reading is not earlier than the first's (which a real-time clock
guarantees). -/
theorem claimC9 (key : Option String) (clockA clockB : Nat → String)
    (uuidA uuidB : String) (upA upB : FetchOutcome)
    (parseA parseB : String → Option ParsedEntry) (prompt : String)
    (hid : uuidA ≠ uuidB) (ht : isoLe (clockA 0) (clockB 0) = true) :
    (runClarityOnServer key clockA uuidA upA parseA prompt).id ≠
      (runClarityOnServer key clockB uuidB upB parseB prompt).id ∧
    isoLe (runClarityOnServer key clockA uuidA upA parseA prompt).createdAt
      (runClarityOnServer key clockB uuidB upB parseB prompt).createdAt = true := by
  rw [runClarity_id, runClarity_id, runClarity_createdAt, runClarity_createdAt]
  exact ⟨hid, ht⟩

/-- C9 witness: a concrete pair of successive calls. -/
theorem claimC9_witness :
    ("u1" : String) ≠ "u2" ∧
    isoLe "2024-01-01T00:00:00.000Z" "2024-01-01T00:00:01.000Z" = true ∧
    ((runClarityOnServer (some "k") (fun _ => "2024-01-01T00:00:00.000Z") "u1"
        FetchOutcome.transportError parseEntry "p").id ≠
      (runClarityOnServer (some "k") (fun _ => "2024-01-01T00:00:01.000Z") "u2"
        (FetchOutcome.response true "x") parseEntry "p").id ∧
    isoLe (runClarityOnServer (some "k") (fun _ => "2024-01-01T00:00:00.000Z") "u1"
        FetchOutcome.transportError parseEntry "p").createdAt
      (runClarityOnServer (some "k") (fun _ => "2024-01-01T00:00:01.000Z") "u2"
        (FetchOutcome.response true "x") parseEntry "p").createdAt = true) :=
  ⟨by decide, by decide,
   claimC9 (some "k") (fun _ => "2024-01-01T00:00:00.000Z")
     (fun _ => "2024-01-01T00:00:01.000Z") "u1" "u2" FetchOutcome.transportError
     (FetchOutcome.response true "x") parseEntry parseEntry "p" (by decide) (by decide)⟩

end PeacePilot
